import Mathlib

/-!
Verification of the task-store component library (`tasks_components.py`).

The library wraps a single SQLite table `tasks` with eight lifecycle
components.  We shallowly embed the table as a list of rows in rowid
(insertion) order, and every component's `execute` as an explicit
state-passing function `Store → args → result × Store`, where the
returned store is the table after the statement and commit.

The `json` module used for the `conversation` and `steps` columns is an
external collaborator ("structured-value ⇄ text codec"), so the
operations are parameterised over an encoder `Enc` and decoder `Dec`;
theorems assume the codec round-trips on the values involved, exactly
the contract the library relies on.  A small concrete codec
(`jsonEnc` / `jsonDec`) is provided so that statements can be evaluated
on concrete inputs.
-/

namespace TasksDB

/-- Structured values representable by the external codec (the image of
Python's JSON-serialisable values). -/
inductive JValue where
  | null : JValue
  | bool (b : Bool) : JValue
  | num (n : Int) : JValue
  | str (s : String) : JValue
  | arr (elems : List JValue) : JValue
  | obj (members : List (String × JValue)) : JValue

/-- An encoder for structured values (models `json.dumps`). -/
abbrev Enc := JValue → String

/-- A decoder for structured values (models `json.loads`; `none` models a
raised `JSONDecodeError`). -/
abbrev Dec := String → Option JValue

mutual

/-- A concrete executable codec encoder used to instantiate `Enc` on
concrete inputs (tag-and-length based, so injective). -/
def jsonEnc : JValue → String
  | .null => "z"
  | .bool true => "t"
  | .bool false => "f"
  | .num n => "i" ++ toString n ++ "e"
  | .str s => "u" ++ toString s.length ++ ":" ++ s
  | .arr xs => "l" ++ jsonEncList xs ++ "e"
  | .obj kvs => "d" ++ jsonEncObj kvs ++ "e"

/-- Encodes a list of values back to back. -/
def jsonEncList : List JValue → String
  | [] => ""
  | v :: vs => jsonEnc v ++ jsonEncList vs

/-- Encodes object members as alternating encoded keys and values. -/
def jsonEncObj : List (String × JValue) → String
  | [] => ""
  | (k, v) :: kvs => "u" ++ toString k.length ++ ":" ++ k ++ jsonEnc v ++ jsonEncObj kvs

end

/-- Reads a run of decimal digits, accumulating onto `acc`. -/
def readDigits (acc : Nat) : List Char → Nat × List Char
  | c :: cs => if c.isDigit then readDigits (acc * 10 + (c.toNat - 48)) cs else (acc, c :: cs)
  | [] => (acc, [])

/-- Reads a nonempty run of decimal digits as a `Nat`. -/
def decNat : List Char → Option (Nat × List Char)
  | c :: cs => if c.isDigit then some (readDigits (c.toNat - 48) cs) else none
  | [] => none

/-- Reads an integer: an optional minus sign then digits. -/
def decInt : List Char → Option (Int × List Char)
  | '-' :: cs => (decNat cs).map (fun p => (-(p.1 : Int), p.2))
  | cs => (decNat cs).map (fun p => ((p.1 : Int), p.2))

/-- Splits off exactly `n` characters, failing if fewer are available. -/
def takeExact (n : Nat) (cs : List Char) : Option (List Char × List Char) :=
  if n ≤ cs.length then some (cs.take n, cs.drop n) else none

/-- Reads a length-prefixed string payload `u<len>:<chars>`. -/
def decStr : List Char → Option (String × List Char)
  | 'u' :: cs =>
    match decNat cs with
    | some (n, ':' :: rest) => (takeExact n rest).map (fun p => (String.mk p.1, p.2))
    | _ => none
  | _ => none

mutual

/-- Fuel-bounded decoder for one value. -/
def decVal : Nat → List Char → Option (JValue × List Char)
  | 0, _ => none
  | _ + 1, [] => none
  | fuel + 1, c :: cs =>
    if c = 'z' then some (.null, cs)
    else if c = 't' then some (.bool true, cs)
    else if c = 'f' then some (.bool false, cs)
    else if c = 'i' then
      match decInt cs with
      | some (n, 'e' :: rest) => some (.num n, rest)
      | _ => none
    else if c = 'u' then (decStr (c :: cs)).map (fun p => (.str p.1, p.2))
    else if c = 'l' then (decArr fuel cs).map (fun p => (.arr p.1, p.2))
    else if c = 'd' then (decMembers fuel cs).map (fun p => (.obj p.1, p.2))
    else none

/-- Fuel-bounded decoder for array elements up to the closing `e`. -/
def decArr : Nat → List Char → Option (List JValue × List Char)
  | 0, _ => none
  | _ + 1, 'e' :: rest => some ([], rest)
  | fuel + 1, cs =>
    match decVal fuel cs with
    | some (v, rest) => (decArr fuel rest).map (fun p => (v :: p.1, p.2))
    | none => none

/-- Fuel-bounded decoder for object members up to the closing `e`. -/
def decMembers : Nat → List Char → Option (List (String × JValue) × List Char)
  | 0, _ => none
  | _ + 1, 'e' :: rest => some ([], rest)
  | fuel + 1, cs =>
    match decStr cs with
    | some (k, rest) =>
      match decVal fuel rest with
      | some (v, rest2) => (decMembers fuel rest2).map (fun p => ((k, v) :: p.1, p.2))
      | none => none
    | none => none

end

/-- The concrete executable codec decoder matching `jsonEnc`. -/
def jsonDec : Dec := fun s =>
  match decVal (2 * s.length + 2) s.data with
  | some (v, []) => some v
  | _ => none

/-- One row of the `tasks` table, columns in schema order.
`conversation` and `steps` hold encoded text; `details` is nullable. -/
structure Row where
  id : Nat
  task_id : String
  summary : String
  conversation : String
  details : Option String
  steps : String
  current_step_num : Int
  is_active : Bool
  is_waiting : Bool
deriving DecidableEq

/-- The `tasks` table: rows in rowid order plus the AUTOINCREMENT
counter for the next internal id. -/
structure Store where
  rows : List Row
  nextId : Nat
deriving DecidableEq

/-- Errors surfaced by the operations.  `ValidationError` models the
NOT NULL integrity error on a missing required field, `DuplicateTaskId`
the UNIQUE integrity error on `task_id`, and `DecodeError` a
`JSONDecodeError` raised while decoding a stored column. -/
inductive TasksError where
  | ValidationError
  | DuplicateTaskId
  | DecodeError
deriving DecidableEq

/-- `TasksCreateTask.execute`: INSERT a new row.  Required inputs
(`task_id`, `summary`) are `Option`s because an unset port carries
Python `None`, which SQLite rejects via NOT NULL; `conversation` and
`steps` always pass through `json.dumps` (Python `None` maps to
`JValue.null`); `details` is stored as given, possibly NULL.  A failed
statement leaves the table unchanged. -/
def createTask (enc : Enc) (s : Store) (taskId? : Option String) (summary? : Option String)
    (conversation : JValue) (details? : Option String) (steps : JValue) :
    Option TasksError × Store :=
  match taskId?, summary? with
  | some tid, some summ =>
    if s.rows.any (fun r => decide (r.task_id = tid)) then
      (some .DuplicateTaskId, s)
    else
      (none, { rows := s.rows ++ [{ id := s.nextId, task_id := tid, summary := summ,
                                    conversation := enc conversation, details := details?,
                                    steps := enc steps, current_step_num := 0,
                                    is_active := true, is_waiting := false }],
               nextId := s.nextId + 1 })
  | _, _ => (some .ValidationError, s)

/-- The record `TasksGetTaskDetails.execute` reports on a match: the
selected columns with `conversation` and `steps` decoded. -/
structure TaskDetails where
  task_id : String
  summary : String
  conversation : JValue
  details : Option String
  steps : JValue
  current_step_num : Int
  is_active : Bool
  is_waiting : Bool

/-- Decodes one fetched row the way `TasksGetTaskDetails.execute` does
(`json.loads` on `conversation` and `steps`); `none` models the raised
decode error. -/
def decodeRow (dec : Dec) (r : Row) : Option TaskDetails :=
  match dec r.conversation, dec r.steps with
  | some c, some st =>
    some { task_id := r.task_id, summary := r.summary, conversation := c,
           details := r.details, steps := st, current_step_num := r.current_step_num,
           is_active := r.is_active, is_waiting := r.is_waiting }
  | _, _ => none

/-- `TasksGetTaskDetails.execute`: SELECT by `task_id`, fetchone.  On a
match the decoded record is reported; on no match every output port is
set to `None` (the sentinel absent-result, `Except.ok none` here). -/
def getTaskDetails (dec : Dec) (s : Store) (tid : String) :
    Except TasksError (Option TaskDetails) × Store :=
  match s.rows.find? (fun r => decide (r.task_id = tid)) with
  | none => (.ok none, s)
  | some r =>
    match decodeRow dec r with
    | some d => (.ok (some d), s)
    | none => (.error .DecodeError, s)

/-- `TasksDeleteTask.execute`: DELETE the rows matching `task_id`. -/
def deleteTask (s : Store) (tid : String) : Option TasksError × Store :=
  (none, { s with rows := s.rows.filter (fun r => decide (r.task_id ≠ tid)) })

/-- `TasksUpdateTask.execute`: SELECT the current row first; if absent,
only commit (silent no-op).  Otherwise each optional input that is
Python `None` falls back to the stored value (the omitted encoded
columns are `json.loads`-decoded, which may raise), and the UPDATE
statement rewrites `summary`, `conversation`, `details`, `steps` of
every row matching `task_id`, re-encoding the structured values. -/
def updateTask (enc : Enc) (dec : Dec) (s : Store) (tid : String)
    (summary? : Option String) (conversation? : Option JValue)
    (details? : Option String) (steps? : Option JValue) :
    Option TasksError × Store :=
  match s.rows.find? (fun r => decide (r.task_id = tid)) with
  | none => (none, s)
  | some r =>
    match (match conversation? with | some c => some c | none => dec r.conversation),
          (match steps? with | some v => some v | none => dec r.steps) with
    | some c, some st =>
      (none, { s with rows := s.rows.map (fun x =>
                 if x.task_id = tid then
                   { x with summary := match summary? with | some v => v | none => r.summary,
                            conversation := enc c,
                            details := match details? with | some v => some v | none => r.details,
                            steps := enc st }
                 else x) })
    | _, _ => (some .DecodeError, s)

/-- Decodes the fetched rows in order, the way the list comprehension in
`TasksListActiveTasks.execute` does; fails at the first undecodable row. -/
def decodeRows (dec : Dec) : List Row → Option (List TaskDetails)
  | [] => some []
  | r :: rs =>
    match decodeRow dec r, decodeRows dec rs with
    | some d, some ds => some (d :: ds)
    | _, _ => none

/-- `TasksListActiveTasks.execute`: SELECT the rows with `is_active`
set, decoded as in `TasksGetTaskDetails`. -/
def listActiveTasks (dec : Dec) (s : Store) :
    Except TasksError (List TaskDetails) × Store :=
  match decodeRows dec (s.rows.filter (fun r => r.is_active)) with
  | some ds => (.ok ds, s)
  | none => (.error .DecodeError, s)

/-- `TasksCompleteTask.execute`: UPDATE `is_active = 0` on the matching
rows. -/
def completeTask (s : Store) (tid : String) : Option TasksError × Store :=
  (none, { s with rows := s.rows.map (fun r =>
             if r.task_id = tid then { r with is_active := false } else r) })

/-- `TasksDeferTask.execute`: UPDATE `is_waiting = 1` on the matching
rows. -/
def deferTask (s : Store) (tid : String) : Option TasksError × Store :=
  (none, { s with rows := s.rows.map (fun r =>
             if r.task_id = tid then { r with is_waiting := true } else r) })

/-- `TasksResumeTask.execute`: UPDATE `is_waiting = 0` on the matching
rows. -/
def resumeTask (s : Store) (tid : String) : Option TasksError × Store :=
  (none, { s with rows := s.rows.map (fun r =>
             if r.task_id = tid then { r with is_waiting := false } else r) })

/-! ### Helper lemmas -/

/-- If no row of `l` carries `tid`, the lookup by `task_id` finds nothing. -/
theorem find?_task_id_eq_none (l : List Row) (tid : String)
    (h : ∀ r ∈ l, r.task_id ≠ tid) :
    l.find? (fun r => decide (r.task_id = tid)) = none :=
  List.find?_eq_none.mpr (fun x hx => by simpa using h x hx)

/-- If no row of `l` carries `tid`, the duplicate check is false. -/
theorem any_task_id_eq_false (l : List Row) (tid : String)
    (h : ∀ r ∈ l, r.task_id ≠ tid) :
    l.any (fun r => decide (r.task_id = tid)) = false :=
  List.any_eq_false.mpr (fun x hx => by simpa using h x hx)

/-- A per-row UPDATE guarded by `task_id = tid` rewrites nothing when no
row carries `tid`. -/
theorem map_guarded_eq_self (l : List Row) (tid : String) (f : Row → Row)
    (h : ∀ r ∈ l, r.task_id ≠ tid) :
    l.map (fun r => if r.task_id = tid then f r else r) = l := by
  conv_rhs => rw [← List.map_id l]
  exact List.map_eq_map_iff.mpr (fun x hx => by simp [h x hx])

/-- Lookup by `task_id` commutes with a per-row map that preserves
`task_id`. -/
theorem find?_task_id_map (l : List Row) (tid : String) (f : Row → Row)
    (hf : ∀ r, (f r).task_id = r.task_id) :
    (l.map f).find? (fun r => decide (r.task_id = tid)) =
      (l.find? (fun r => decide (r.task_id = tid))).map f := by
  rw [List.find?_map f l]
  have : ((fun r => decide (r.task_id = tid)) ∘ f) = (fun r => decide (r.task_id = tid)) :=
    funext fun r => by simp [Function.comp, hf]
  rw [this]

/-- Under the UNIQUE constraint on `task_id`, the row found by lookup is
the only row carrying `tid`. -/
theorem eq_of_find?_of_nodup (l : List Row) (tid : String) (r : Row)
    (hnd : (l.map Row.task_id).Nodup)
    (hfind : l.find? (fun x => decide (x.task_id = tid)) = some r)
    (x : Row) (hx : x ∈ l) (hxt : x.task_id = tid) : x = r := by
  have hrmem : r ∈ l := List.mem_of_find?_eq_some hfind
  have hrt : r.task_id = tid := by simpa using List.find?_some hfind
  exact List.inj_on_of_nodup_map hnd hx hrmem (by rw [hxt, hrt])

/-- Decoding a fetched row list succeeds exactly when every row decodes,
and then the results are the row decodings in order. -/
theorem decodeRows_spec (dec : Dec) (l : List Row) (ds : List TaskDetails)
    (h : decodeRows dec l = some ds) :
    (∀ d ∈ ds, ∃ r ∈ l, decodeRow dec r = some d) ∧
    (∀ r ∈ l, ∃ d ∈ ds, decodeRow dec r = some d) := by
  induction l generalizing ds with
  | nil =>
    simp only [decodeRows, Option.some.injEq] at h
    subst h
    simp
  | cons r rs ih =>
    rcases hr : decodeRow dec r with _ | d <;>
      rcases hrs : decodeRows dec rs with _ | ds' <;>
        simp [decodeRows, hr, hrs] at h
    subst h
    obtain ⟨ih1, ih2⟩ := ih ds' hrs
    constructor
    · intro d' hd'
      rcases List.mem_cons.mp hd' with rfl | hd''
      · exact ⟨r, List.mem_cons_self r rs, hr⟩
      · obtain ⟨r', hr', hdec⟩ := ih1 d' hd''
        exact ⟨r', List.mem_cons_of_mem r hr', hdec⟩
    · intro r' hr'
      rcases List.mem_cons.mp hr' with rfl | hr''
      · exact ⟨d, List.mem_cons_self d ds', hr⟩
      · obtain ⟨d', hd', hdec⟩ := ih2 r' hr''
        exact ⟨d', List.mem_cons_of_mem d hd', hdec⟩

/-! ### Claims -/

/-- C3: if some row already carries `task_id = tid`, creating a task
with the same `tid` (and a supplied summary) fails with
`DuplicateTaskId` and the store — in particular the original row — is
unchanged. -/
theorem create_duplicate_fails (enc : Enc) (s : Store) (tid summ : String)
    (conversation : JValue) (details? : Option String) (steps : JValue)
    (r : Row) (hr : r ∈ s.rows) (htid : r.task_id = tid) :
    createTask enc s (some tid) (some summ) conversation details? steps =
      (some .DuplicateTaskId, s) := by
  have hany : s.rows.any (fun x => decide (x.task_id = tid)) = true :=
    List.any_eq_true.mpr ⟨r, hr, by simp [htid]⟩
  simp [createTask, hany]

/-- C3 witness: duplicate creation fails on a concrete one-row store. -/
theorem create_duplicate_fails_witness :
    ({ id := 1, task_id := "t1", summary := "Buy milk", conversation := jsonEnc (.arr []),
       details := some "", steps := jsonEnc (.arr []), current_step_num := 0,
       is_active := true, is_waiting := false } : Row) ∈
      ({ rows := [{ id := 1, task_id := "t1", summary := "Buy milk",
                    conversation := jsonEnc (.arr []), details := some "",
                    steps := jsonEnc (.arr []), current_step_num := 0,
                    is_active := true, is_waiting := false }], nextId := 2 } : Store).rows ∧
    createTask jsonEnc
      { rows := [{ id := 1, task_id := "t1", summary := "Buy milk",
                   conversation := jsonEnc (.arr []), details := some "",
                   steps := jsonEnc (.arr []), current_step_num := 0,
                   is_active := true, is_waiting := false }], nextId := 2 }
      (some "t1") (some "Other") .null none .null =
      (some .DuplicateTaskId,
       { rows := [{ id := 1, task_id := "t1", summary := "Buy milk",
                    conversation := jsonEnc (.arr []), details := some "",
                    steps := jsonEnc (.arr []), current_step_num := 0,
                    is_active := true, is_waiting := false }], nextId := 2 }) :=
  ⟨List.mem_cons_self _ _,
   create_duplicate_fails jsonEnc _ "t1" "Other" .null none .null _ (List.mem_cons_self _ _) rfl⟩

/-- C4 counterexample: creating a task with an empty (but supplied)
summary does not fail with `ValidationError` — it succeeds and inserts a
row, contradicting the claim as stated. -/
theorem create_empty_summary_not_rejected :
    (createTask jsonEnc { rows := [], nextId := 1 } (some "t1") (some "")
        JValue.null (some "") JValue.null).1 = none ∧
    (createTask jsonEnc { rows := [], nextId := 1 } (some "t1") (some "")
        JValue.null (some "") JValue.null).2.rows.length = 1 :=
  ⟨rfl, rfl⟩

/-- C4 (amended): creation fails with the NOT NULL integrity error
(`ValidationError`) exactly when `task_id` or `summary` is missing
(unset, i.e. Python `None`), and then no row is inserted; empty strings
are accepted. -/
theorem create_missing_required (enc : Enc) (s : Store)
    (taskId? summary? : Option String) (conversation : JValue)
    (details? : Option String) (steps : JValue)
    (h : taskId? = none ∨ summary? = none) :
    createTask enc s taskId? summary? conversation details? steps =
      (some .ValidationError, s) := by
  rcases h with h | h <;> subst h <;>
    first
    | rfl
    | (rcases taskId? with _ | tid <;> rfl)

/-- C4 witness: creation with no summary supplied fails with
`ValidationError` and leaves the empty store empty. -/
theorem create_missing_required_witness :
    ((some "t1" : Option String) = none ∨ (none : Option String) = none) ∧
    createTask jsonEnc { rows := [], nextId := 1 } (some "t1") none
        JValue.null none JValue.null =
      (some .ValidationError, { rows := [], nextId := 1 }) :=
  ⟨Or.inr rfl,
   create_missing_required jsonEnc _ (some "t1") none JValue.null none JValue.null (Or.inr rfl)⟩

/-- C5: on a `task_id` carried by no row, Update, Delete, Complete,
Defer and Resume all return no error and leave the store unchanged, and
GetTaskDetails still reports the absent-result. -/
theorem missing_id_noop (enc : Enc) (dec : Dec) (s : Store) (tid : String)
    (summary? : Option String) (conversation? : Option JValue)
    (details? : Option String) (steps? : Option JValue)
    (h : ∀ r ∈ s.rows, r.task_id ≠ tid) :
    updateTask enc dec s tid summary? conversation? details? steps? = (none, s) ∧
    deleteTask s tid = (none, s) ∧
    completeTask s tid = (none, s) ∧
    deferTask s tid = (none, s) ∧
    resumeTask s tid = (none, s) ∧
    (getTaskDetails dec s tid).1 = .ok none := by
  have hfind := find?_task_id_eq_none s.rows tid h
  refine ⟨?_, ?_, ?_, ?_, ?_, ?_⟩
  · unfold updateTask
    rw [hfind]
  · unfold deleteTask
    rw [List.filter_eq_self.mpr (fun a ha => by simpa using h a ha)]
  · unfold completeTask
    rw [map_guarded_eq_self s.rows tid _ h]
  · unfold deferTask
    rw [map_guarded_eq_self s.rows tid _ h]
  · unfold resumeTask
    rw [map_guarded_eq_self s.rows tid _ h]
  · unfold getTaskDetails
    rw [hfind]

/-- C5 witness: the five mutators and GetTaskDetails on the id `"t2"`,
absent from a concrete one-row store, leave it unchanged. -/
theorem missing_id_noop_witness :
    (∀ r ∈ ({ rows := [{ id := 1, task_id := "t1", summary := "Buy milk",
                         conversation := jsonEnc (.arr []), details := some "",
                         steps := jsonEnc (.arr []), current_step_num := 0,
                         is_active := true, is_waiting := false }], nextId := 2 } : Store).rows,
        r.task_id ≠ "t2") ∧
    (updateTask jsonEnc jsonDec
        { rows := [{ id := 1, task_id := "t1", summary := "Buy milk",
                     conversation := jsonEnc (.arr []), details := some "",
                     steps := jsonEnc (.arr []), current_step_num := 0,
                     is_active := true, is_waiting := false }], nextId := 2 }
        "t2" (some "x") none none none =
      (none, { rows := [{ id := 1, task_id := "t1", summary := "Buy milk",
                          conversation := jsonEnc (.arr []), details := some "",
                          steps := jsonEnc (.arr []), current_step_num := 0,
                          is_active := true, is_waiting := false }], nextId := 2 }) ∧
     deleteTask
        { rows := [{ id := 1, task_id := "t1", summary := "Buy milk",
                     conversation := jsonEnc (.arr []), details := some "",
                     steps := jsonEnc (.arr []), current_step_num := 0,
                     is_active := true, is_waiting := false }], nextId := 2 } "t2" =
      (none, { rows := [{ id := 1, task_id := "t1", summary := "Buy milk",
                          conversation := jsonEnc (.arr []), details := some "",
                          steps := jsonEnc (.arr []), current_step_num := 0,
                          is_active := true, is_waiting := false }], nextId := 2 }) ∧
     completeTask
        { rows := [{ id := 1, task_id := "t1", summary := "Buy milk",
                     conversation := jsonEnc (.arr []), details := some "",
                     steps := jsonEnc (.arr []), current_step_num := 0,
                     is_active := true, is_waiting := false }], nextId := 2 } "t2" =
      (none, { rows := [{ id := 1, task_id := "t1", summary := "Buy milk",
                          conversation := jsonEnc (.arr []), details := some "",
                          steps := jsonEnc (.arr []), current_step_num := 0,
                          is_active := true, is_waiting := false }], nextId := 2 }) ∧
     deferTask
        { rows := [{ id := 1, task_id := "t1", summary := "Buy milk",
                     conversation := jsonEnc (.arr []), details := some "",
                     steps := jsonEnc (.arr []), current_step_num := 0,
                     is_active := true, is_waiting := false }], nextId := 2 } "t2" =
      (none, { rows := [{ id := 1, task_id := "t1", summary := "Buy milk",
                          conversation := jsonEnc (.arr []), details := some "",
                          steps := jsonEnc (.arr []), current_step_num := 0,
                          is_active := true, is_waiting := false }], nextId := 2 }) ∧
     resumeTask
        { rows := [{ id := 1, task_id := "t1", summary := "Buy milk",
                     conversation := jsonEnc (.arr []), details := some "",
                     steps := jsonEnc (.arr []), current_step_num := 0,
                     is_active := true, is_waiting := false }], nextId := 2 } "t2" =
      (none, { rows := [{ id := 1, task_id := "t1", summary := "Buy milk",
                          conversation := jsonEnc (.arr []), details := some "",
                          steps := jsonEnc (.arr []), current_step_num := 0,
                          is_active := true, is_waiting := false }], nextId := 2 }) ∧
     (getTaskDetails jsonDec
        { rows := [{ id := 1, task_id := "t1", summary := "Buy milk",
                     conversation := jsonEnc (.arr []), details := some "",
                     steps := jsonEnc (.arr []), current_step_num := 0,
                     is_active := true, is_waiting := false }], nextId := 2 } "t2").1 =
      .ok none) :=
  ⟨by simp,
   missing_id_noop jsonEnc jsonDec _ "t2" (some "x") none none none (by simp)⟩

/-- C8: on a `task_id` carried by no row, GetTaskDetails reports the
sentinel absent-result (every output port set to `None`) and raises no
error, leaving the store unchanged. -/
theorem get_missing_returns_absent (dec : Dec) (s : Store) (tid : String)
    (h : ∀ r ∈ s.rows, r.task_id ≠ tid) :
    getTaskDetails dec s tid = (.ok none, s) := by
  unfold getTaskDetails
  rw [find?_task_id_eq_none s.rows tid h]

/-- C8 witness: GetTaskDetails on an id absent from a concrete store. -/
theorem get_missing_returns_absent_witness :
    (∀ r ∈ ({ rows := [{ id := 1, task_id := "t1", summary := "Buy milk",
                         conversation := jsonEnc (.arr []), details := some "",
                         steps := jsonEnc (.arr []), current_step_num := 0,
                         is_active := true, is_waiting := false }], nextId := 2 } : Store).rows,
        r.task_id ≠ "t9") ∧
    getTaskDetails jsonDec
        { rows := [{ id := 1, task_id := "t1", summary := "Buy milk",
                     conversation := jsonEnc (.arr []), details := some "",
                     steps := jsonEnc (.arr []), current_step_num := 0,
                     is_active := true, is_waiting := false }], nextId := 2 } "t9" =
      (.ok none,
       { rows := [{ id := 1, task_id := "t1", summary := "Buy milk",
                    conversation := jsonEnc (.arr []), details := some "",
                    steps := jsonEnc (.arr []), current_step_num := 0,
                    is_active := true, is_waiting := false }], nextId := 2 }) :=
  ⟨by simp, get_missing_returns_absent jsonDec _ "t9" (by simp)⟩

/-- C9: Complete, Defer and Resume raise no error and write only their
single target flag on the matching rows — every other column of every
row (`task_id`, `summary`, `conversation`, `details`, `steps`,
`current_step_num`, and the untargeted flag) and the id counter are
unchanged. -/
theorem flag_ops_single_column (s : Store) (tid : String) :
    (completeTask s tid).1 = none ∧ (deferTask s tid).1 = none ∧
    (resumeTask s tid).1 = none ∧
    (completeTask s tid).2.rows = s.rows.map (fun r =>
        { r with is_active := if r.task_id = tid then false else r.is_active }) ∧
    (deferTask s tid).2.rows = s.rows.map (fun r =>
        { r with is_waiting := if r.task_id = tid then true else r.is_waiting }) ∧
    (resumeTask s tid).2.rows = s.rows.map (fun r =>
        { r with is_waiting := if r.task_id = tid then false else r.is_waiting }) ∧
    (completeTask s tid).2.nextId = s.nextId ∧
    (deferTask s tid).2.nextId = s.nextId ∧
    (resumeTask s tid).2.nextId = s.nextId := by
  refine ⟨rfl, rfl, rfl, ?_, ?_, ?_, rfl, rfl, rfl⟩ <;>
    exact List.map_eq_map_iff.mpr (fun x _ => by by_cases hx : x.task_id = tid <;> simp [hx])

/-- C10: GetTaskDetails and ListActiveTasks are read-only — for every
store, codec and input they return the store exactly as given. -/
theorem reads_leave_store_unchanged (dec : Dec) (s : Store) (tid : String) :
    (getTaskDetails dec s tid).2 = s ∧ (listActiveTasks dec s).2 = s := by
  constructor
  · unfold getTaskDetails
    cases hf : s.rows.find? (fun r => decide (r.task_id = tid)) with
    | none => rfl
    | some r =>
      show (match decodeRow dec r with
            | some d => ((Except.ok (some d) : Except TasksError (Option TaskDetails)), s)
            | none => (Except.error TasksError.DecodeError, s)).2 = s
      cases hd : decodeRow dec r with
      | none => rfl
      | some d => rfl
  · unfold listActiveTasks
    cases hd : decodeRows dec (s.rows.filter (fun r => r.is_active)) with
    | none => rfl
    | some ds => rfl

/-- C1: creating a task under a fresh `task_id` succeeds, and
GetTaskDetails for that id then returns `conversation` and `steps`
structurally equal to the inputs (codec round-trip), and reports
`current_step_num = 0`, `is_active = true`, `is_waiting = false`. -/
theorem create_get_roundtrip (enc : Enc) (dec : Dec) (s : Store)
    (tid summ : String) (conversation : JValue) (details? : Option String) (steps : JValue)
    (hfresh : ∀ r ∈ s.rows, r.task_id ≠ tid)
    (hc : dec (enc conversation) = some conversation)
    (hst : dec (enc steps) = some steps) :
    (createTask enc s (some tid) (some summ) conversation details? steps).1 = none ∧
    (getTaskDetails dec
        (createTask enc s (some tid) (some summ) conversation details? steps).2 tid).1 =
      .ok (some { task_id := tid, summary := summ, conversation := conversation,
                  details := details?, steps := steps, current_step_num := 0,
                  is_active := true, is_waiting := false }) := by
  have hany := any_task_id_eq_false s.rows tid hfresh
  have hcreate : createTask enc s (some tid) (some summ) conversation details? steps =
      (none,
       { rows := s.rows ++ [{ id := s.nextId, task_id := tid, summary := summ,
                              conversation := enc conversation, details := details?,
                              steps := enc steps, current_step_num := 0,
                              is_active := true, is_waiting := false }],
         nextId := s.nextId + 1 }) := by
    simp [createTask, hany]
  refine ⟨by rw [hcreate], ?_⟩
  rw [hcreate]
  have hfind : (s.rows ++ [({ id := s.nextId, task_id := tid, summary := summ,
                              conversation := enc conversation, details := details?,
                              steps := enc steps, current_step_num := 0,
                              is_active := true, is_waiting := false } : Row)]).find?
      (fun x => decide (x.task_id = tid)) =
      some { id := s.nextId, task_id := tid, summary := summ,
             conversation := enc conversation, details := details?,
             steps := enc steps, current_step_num := 0,
             is_active := true, is_waiting := false } := by
    rw [List.find?_append, find?_task_id_eq_none s.rows tid hfresh, Option.none_or]
    simp [List.find?]
  unfold getTaskDetails
  rw [hfind]
  simp [decodeRow, hc, hst]

/-- C1 witness: the end-to-end scenario on a concrete empty store with
the concrete codec. -/
theorem create_get_roundtrip_witness :
    (∀ r ∈ ({ rows := [], nextId := 1 } : Store).rows, r.task_id ≠ "t1") ∧
    jsonDec (jsonEnc (JValue.arr [])) = some (JValue.arr []) ∧
    jsonDec (jsonEnc (JValue.arr [JValue.str "go", JValue.str "pay"])) =
      some (JValue.arr [JValue.str "go", JValue.str "pay"]) ∧
    ((createTask jsonEnc { rows := [], nextId := 1 } (some "t1") (some "Buy milk")
        (JValue.arr []) (some "") (JValue.arr [JValue.str "go", JValue.str "pay"])).1 = none ∧
     (getTaskDetails jsonDec
        (createTask jsonEnc { rows := [], nextId := 1 } (some "t1") (some "Buy milk")
          (JValue.arr []) (some "") (JValue.arr [JValue.str "go", JValue.str "pay"])).2 "t1").1 =
      .ok (some { task_id := "t1", summary := "Buy milk", conversation := JValue.arr [],
                  details := some "", steps := JValue.arr [JValue.str "go", JValue.str "pay"],
                  current_step_num := 0, is_active := true, is_waiting := false })) :=
  ⟨by simp, rfl, rfl,
   create_get_roundtrip jsonEnc jsonDec { rows := [], nextId := 1 } "t1" "Buy milk"
     (JValue.arr []) (some "") (JValue.arr [JValue.str "go", JValue.str "pay"])
     (by simp) rfl rfl⟩

/-- C7: on a store containing a row for `tid`, Defer then Complete
leaves that row with `is_active = false` and `is_waiting = true`
simultaneously — neither single-flag update clears the other flag. -/
theorem defer_then_complete_flags (s : Store) (tid : String) (r : Row)
    (hfind : s.rows.find? (fun x => decide (x.task_id = tid)) = some r) :
    (deferTask s tid).1 = none ∧
    (completeTask (deferTask s tid).2 tid).1 = none ∧
    (completeTask (deferTask s tid).2 tid).2.rows.find?
        (fun x => decide (x.task_id = tid)) =
      some { r with is_active := false, is_waiting := true } := by
  have htid : r.task_id = tid := by simpa using List.find?_some hfind
  refine ⟨rfl, rfl, ?_⟩
  show ((s.rows.map (fun x => if x.task_id = tid then { x with is_waiting := true } else x)).map
          (fun x => if x.task_id = tid then { x with is_active := false } else x)).find?
        (fun x => decide (x.task_id = tid)) = _
  rw [find?_task_id_map _ tid _ (fun x => by by_cases hx : x.task_id = tid <;> simp [hx]),
      find?_task_id_map _ tid _ (fun x => by by_cases hx : x.task_id = tid <;> simp [hx]),
      hfind]
  simp [htid]

/-- C7 witness: Defer then Complete on a concrete one-row store. -/
theorem defer_then_complete_flags_witness :
    ({ rows := [{ id := 1, task_id := "t1", summary := "Buy milk",
                  conversation := jsonEnc (.arr []), details := some "",
                  steps := jsonEnc (.arr []), current_step_num := 0,
                  is_active := true, is_waiting := false }], nextId := 2 } : Store).rows.find?
        (fun x => decide (x.task_id = "t1")) =
      some { id := 1, task_id := "t1", summary := "Buy milk",
             conversation := jsonEnc (.arr []), details := some "",
             steps := jsonEnc (.arr []), current_step_num := 0,
             is_active := true, is_waiting := false } ∧
    ((deferTask { rows := [{ id := 1, task_id := "t1", summary := "Buy milk",
                             conversation := jsonEnc (.arr []), details := some "",
                             steps := jsonEnc (.arr []), current_step_num := 0,
                             is_active := true, is_waiting := false }], nextId := 2 } "t1").1 = none ∧
     (completeTask (deferTask
        { rows := [{ id := 1, task_id := "t1", summary := "Buy milk",
                     conversation := jsonEnc (.arr []), details := some "",
                     steps := jsonEnc (.arr []), current_step_num := 0,
                     is_active := true, is_waiting := false }], nextId := 2 } "t1").2 "t1").1 = none ∧
     (completeTask (deferTask
        { rows := [{ id := 1, task_id := "t1", summary := "Buy milk",
                     conversation := jsonEnc (.arr []), details := some "",
                     steps := jsonEnc (.arr []), current_step_num := 0,
                     is_active := true, is_waiting := false }], nextId := 2 } "t1").2 "t1").2.rows.find?
        (fun x => decide (x.task_id = "t1")) =
      some { id := 1, task_id := "t1", summary := "Buy milk",
             conversation := jsonEnc (.arr []), details := some "",
             steps := jsonEnc (.arr []), current_step_num := 0,
             is_active := false, is_waiting := true }) :=
  ⟨rfl, defer_then_complete_flags
     { rows := [{ id := 1, task_id := "t1", summary := "Buy milk",
                  conversation := jsonEnc (.arr []), details := some "",
                  steps := jsonEnc (.arr []), current_step_num := 0,
                  is_active := true, is_waiting := false }], nextId := 2 } "t1"
     { id := 1, task_id := "t1", summary := "Buy milk",
       conversation := jsonEnc (.arr []), details := some "",
       steps := jsonEnc (.arr []), current_step_num := 0,
       is_active := true, is_waiting := false } rfl⟩

/-- C2: on a store whose row for `tid` carries canonically encoded
`conversation` and `steps` columns (as every row written by Create and
Update does), Update overwrites exactly the explicitly supplied optional
fields and retains the stored value of every omitted one; with no fields
supplied the row is left bit-for-bit unchanged, and flags, step cursor
and id counter are never touched. -/
theorem update_partial_merge (enc : Enc) (dec : Dec) (s : Store) (tid : String)
    (summary? : Option String) (conversation? : Option JValue)
    (details? : Option String) (steps? : Option JValue)
    (r : Row) (c st : JValue)
    (hnd : (s.rows.map Row.task_id).Nodup)
    (hfind : s.rows.find? (fun x => decide (x.task_id = tid)) = some r)
    (hcdec : dec r.conversation = some c) (hcenc : enc c = r.conversation)
    (hstdec : dec r.steps = some st) (hstenc : enc st = r.steps) :
    (updateTask enc dec s tid summary? conversation? details? steps?).1 = none ∧
    (updateTask enc dec s tid summary? conversation? details? steps?).2.rows =
      s.rows.map (fun x =>
        if x.task_id = tid then
          { x with summary := summary?.getD x.summary,
                   conversation := (conversation?.map enc).getD x.conversation,
                   details := details?.or x.details,
                   steps := (steps?.map enc).getD x.steps }
        else x) ∧
    (updateTask enc dec s tid summary? conversation? details? steps?).2.nextId = s.nextId := by
  have hxr : ∀ x ∈ s.rows, x.task_id = tid → x = r :=
    eq_of_find?_of_nodup s.rows tid r hnd hfind
  rcases conversation? with _ | cv <;> rcases steps? with _ | sv
  all_goals
    refine ⟨by simp [updateTask, hfind, hcdec, hstdec], ?_,
            by simp [updateTask, hfind, hcdec, hstdec]⟩
    simp only [updateTask, hfind, hcdec, hstdec]
    apply List.map_eq_map_iff.mpr
    intro x hx
    by_cases hxt : x.task_id = tid
    · have hx_eq := hxr x hx hxt
      subst hx_eq
      rcases summary? with _ | sm <;> rcases details? with _ | dt <;>
        simp [hxt, hcenc, hstenc]
    · simp [hxt]

/-- C2 witness: updating only the summary on a concrete one-row store
leaves conversation, details and steps at their stored values. -/
theorem update_partial_merge_witness :
    (jsonDec (jsonEnc (JValue.arr [JValue.str "hi"])) = some (JValue.arr [JValue.str "hi"])) ∧
    (jsonDec (jsonEnc (JValue.arr [JValue.str "go"])) = some (JValue.arr [JValue.str "go"])) ∧
    ((updateTask jsonEnc jsonDec
        { rows := [{ id := 1, task_id := "t1", summary := "Buy milk",
                     conversation := jsonEnc (.arr [.str "hi"]), details := some "d",
                     steps := jsonEnc (.arr [.str "go"]), current_step_num := 0,
                     is_active := true, is_waiting := false }], nextId := 2 }
        "t1" (some "New summary") none none none).1 = none ∧
     (updateTask jsonEnc jsonDec
        { rows := [{ id := 1, task_id := "t1", summary := "Buy milk",
                     conversation := jsonEnc (.arr [.str "hi"]), details := some "d",
                     steps := jsonEnc (.arr [.str "go"]), current_step_num := 0,
                     is_active := true, is_waiting := false }], nextId := 2 }
        "t1" (some "New summary") none none none).2.rows =
      [{ id := 1, task_id := "t1", summary := "Buy milk",
         conversation := jsonEnc (.arr [.str "hi"]), details := some "d",
         steps := jsonEnc (.arr [.str "go"]), current_step_num := 0,
         is_active := true, is_waiting := false }].map (fun x =>
        if x.task_id = "t1" then
          { x with summary := (some "New summary").getD x.summary,
                   conversation := ((none : Option JValue).map jsonEnc).getD x.conversation,
                   details := (none : Option String).or x.details,
                   steps := ((none : Option JValue).map jsonEnc).getD x.steps }
        else x) ∧
     (updateTask jsonEnc jsonDec
        { rows := [{ id := 1, task_id := "t1", summary := "Buy milk",
                     conversation := jsonEnc (.arr [.str "hi"]), details := some "d",
                     steps := jsonEnc (.arr [.str "go"]), current_step_num := 0,
                     is_active := true, is_waiting := false }], nextId := 2 }
        "t1" (some "New summary") none none none).2.nextId = 2) :=
  ⟨rfl, rfl,
   update_partial_merge jsonEnc jsonDec _ "t1" (some "New summary") none none none
     _ (JValue.arr [JValue.str "hi"]) (JValue.arr [JValue.str "go"])
     (by simp) rfl rfl rfl rfl rfl⟩

/-- C6: whenever ListActiveTasks succeeds, it returns exactly the rows
whose `is_active` flag is set, each decoded the same way GetTaskDetails
decodes (`decodeRow`), and no inactive row contributes an entry. -/
theorem listActive_exactly_active (dec : Dec) (s : Store) (ds : List TaskDetails)
    (h : (listActiveTasks dec s).1 = .ok ds) :
    (∀ d ∈ ds, ∃ r ∈ s.rows, r.is_active = true ∧ decodeRow dec r = some d) ∧
    (∀ r ∈ s.rows, r.is_active = true → ∃ d ∈ ds, decodeRow dec r = some d) := by
  have hdec : decodeRows dec (s.rows.filter (fun r => r.is_active)) = some ds := by
    unfold listActiveTasks at h
    cases hd : decodeRows dec (s.rows.filter (fun r => r.is_active)) with
    | none => rw [hd] at h; simp at h
    | some ds' => rw [hd] at h; simp at h; rw [h]
  obtain ⟨h1, h2⟩ := decodeRows_spec dec _ ds hdec
  constructor
  · intro d hd'
    obtain ⟨r, hr, hdec'⟩ := h1 d hd'
    obtain ⟨hrmem, hract⟩ := List.mem_filter.mp hr
    exact ⟨r, hrmem, by simpa using hract, hdec'⟩
  · intro r hr hract
    exact h2 r (List.mem_filter.mpr ⟨hr, by simpa using hract⟩)

/-- C6 witness: of three concrete tasks with the middle one completed,
ListActiveTasks returns exactly the other two with their stored values. -/
theorem listActive_exactly_active_witness :
    ((listActiveTasks jsonDec
        { rows := [{ id := 1, task_id := "t1", summary := "A",
                     conversation := jsonEnc (.arr []), details := some "",
                     steps := jsonEnc (.arr []), current_step_num := 0,
                     is_active := true, is_waiting := false },
                   { id := 2, task_id := "t2", summary := "B",
                     conversation := jsonEnc (.arr []), details := some "",
                     steps := jsonEnc (.arr []), current_step_num := 0,
                     is_active := false, is_waiting := false },
                   { id := 3, task_id := "t3", summary := "C",
                     conversation := jsonEnc (.arr []), details := some "",
                     steps := jsonEnc (.arr []), current_step_num := 0,
                     is_active := true, is_waiting := false }], nextId := 4 }).1 =
      .ok [{ task_id := "t1", summary := "A", conversation := JValue.arr [],
             details := some "", steps := JValue.arr [], current_step_num := 0,
             is_active := true, is_waiting := false },
           { task_id := "t3", summary := "C", conversation := JValue.arr [],
             details := some "", steps := JValue.arr [], current_step_num := 0,
             is_active := true, is_waiting := false }]) ∧
    ((∀ d ∈ [({ task_id := "t1", summary := "A", conversation := JValue.arr [],
                details := some "", steps := JValue.arr [], current_step_num := 0,
                is_active := true, is_waiting := false } : TaskDetails),
              { task_id := "t3", summary := "C", conversation := JValue.arr [],
                details := some "", steps := JValue.arr [], current_step_num := 0,
                is_active := true, is_waiting := false }],
        ∃ r ∈ ({ rows := [{ id := 1, task_id := "t1", summary := "A",
                            conversation := jsonEnc (.arr []), details := some "",
                            steps := jsonEnc (.arr []), current_step_num := 0,
                            is_active := true, is_waiting := false },
                          { id := 2, task_id := "t2", summary := "B",
                            conversation := jsonEnc (.arr []), details := some "",
                            steps := jsonEnc (.arr []), current_step_num := 0,
                            is_active := false, is_waiting := false },
                          { id := 3, task_id := "t3", summary := "C",
                            conversation := jsonEnc (.arr []), details := some "",
                            steps := jsonEnc (.arr []), current_step_num := 0,
                            is_active := true, is_waiting := false }], nextId := 4 } : Store).rows,
          r.is_active = true ∧ decodeRow jsonDec r = some d) ∧
     (∀ r ∈ ({ rows := [{ id := 1, task_id := "t1", summary := "A",
                          conversation := jsonEnc (.arr []), details := some "",
                          steps := jsonEnc (.arr []), current_step_num := 0,
                          is_active := true, is_waiting := false },
                        { id := 2, task_id := "t2", summary := "B",
                          conversation := jsonEnc (.arr []), details := some "",
                          steps := jsonEnc (.arr []), current_step_num := 0,
                          is_active := false, is_waiting := false },
                        { id := 3, task_id := "t3", summary := "C",
                          conversation := jsonEnc (.arr []), details := some "",
                          steps := jsonEnc (.arr []), current_step_num := 0,
                          is_active := true, is_waiting := false }], nextId := 4 } : Store).rows,
        r.is_active = true →
          ∃ d ∈ [({ task_id := "t1", summary := "A", conversation := JValue.arr [],
                    details := some "", steps := JValue.arr [], current_step_num := 0,
                    is_active := true, is_waiting := false } : TaskDetails),
                 { task_id := "t3", summary := "C", conversation := JValue.arr [],
                   details := some "", steps := JValue.arr [], current_step_num := 0,
                   is_active := true, is_waiting := false }],
            decodeRow jsonDec r = some d)) :=
  ⟨rfl, listActive_exactly_active jsonDec _ _ rfl⟩

end TasksDB
